import Mathlib

/-!
Verification of `scripts/cost-optimization.py` (SecuRizon cost optimization
engine).  The script is a `CostOptimizer` class with four analysis methods
(`analyze_cluster_usage`, `analyze_rds_usage`, `analyze_kafka_usage`,
`get_total_cost`) and one aggregation method (`generate_cost_report`),
followed by a `__main__` block that prints the report as JSON.

Embedding conventions:
* Python/JSON values are modelled by the inductive `JValue`; dictionaries are
  association lists that keep insertion order (as Python dicts do).
* Python numbers (int and float) are both modelled as rationals; all the
  arithmetic in the script is exact (sums of zeros, division by 1), so
  rationals are a faithful model of the IEEE values actually produced.
* A raised Python exception is `Except.error (e : PyError)`; `str(e)` is
  `e.msg`.  A `try ... except` block is a `match` on the `Except` result.
* The external AWS clients (`self.rds.describe_db_clusters`,
  `msk.describe_cluster`) and the wall clock are oracles collected in `Env`;
  an oracle returning `Except.error e` models the API call raising `e`.
* `print(...)` is modelled as appending an `OutLine` to an output list, with
  the stream the Python call actually writes to (`print` without a `file=`
  argument writes to standard output).
-/

/-- A Python exception, identified by its `str(e)` rendering. -/
structure PyError where
  msg : String
deriving Repr, DecidableEq

/-- JSON-like Python values: `None`, booleans, numbers (int/float merged as
rationals), strings, lists and dicts (insertion-ordered association lists). -/
inductive JValue where
  | null : JValue
  | bool : Bool → JValue
  | num : ℚ → JValue
  | str : String → JValue
  | arr : List JValue → JValue
  | obj : List (String × JValue) → JValue

/-- Python truthiness (`bool(v)`) of a value. -/
def truthy : JValue → Bool
  | .null => false
  | .bool b => b
  | .num q => if q = 0 then false else true
  | .str s => if s = "" then false else true
  | .arr l => !l.isEmpty
  | .obj l => !l.isEmpty

/-- Dict key lookup without exceptions (used to state properties). -/
def jlookup (v : JValue) (key : String) : Option JValue :=
  match v with
  | .obj fs => fs.lookup key
  | _ => none

/-- Two-level dict lookup (used to state properties). -/
def jlookup2 (v : JValue) (k1 k2 : String) : Option JValue :=
  match jlookup v k1 with
  | some w => jlookup w k2
  | none => none

/-- The key list of a dict value (used to state properties). -/
def jkeys : JValue → List String
  | .obj fs => fs.map Prod.fst
  | _ => []

/-- Python subscript `v[key]` on a dict: `KeyError` when the key is missing,
`TypeError` when `v` is not a dict. -/
def pySubscript (v : JValue) (key : String) : Except PyError JValue :=
  match v with
  | .obj fs =>
    match fs.lookup key with
    | some w => .ok w
    | none => .error ⟨"KeyError: " ++ key⟩
  | _ => .error ⟨"TypeError: value is not subscriptable"⟩

/-- Python subscript `v[i]` on a list: `IndexError` when out of range,
`TypeError` when `v` is not a list. -/
def pyIndex (v : JValue) (i : Nat) : Except PyError JValue :=
  match v with
  | .arr l =>
    match l[i]? with
    | some w => .ok w
    | none => .error ⟨"IndexError: list index out of range"⟩
  | _ => .error ⟨"TypeError: value is not indexable"⟩

/-- Python `v.get(key, default)`: `AttributeError` when `v` is not a dict. -/
def pyGet (v : JValue) (key : String) (dflt : JValue) : Except PyError JValue :=
  match v with
  | .obj fs => .ok ((fs.lookup key).getD dflt)
  | _ => .error ⟨"AttributeError: value has no attribute get"⟩

/-- Python `acc + v` where `acc` is already numeric: `TypeError` unless `v`
is a number or a bool (Python bools are ints). -/
def pyAddNum (acc : ℚ) (v : JValue) : Except PyError ℚ :=
  match v with
  | .num q => .ok (acc + q)
  | .bool b => .ok (acc + (if b then 1 else 0))
  | _ => .error ⟨"TypeError: unsupported operand type for +="⟩

/-- The external world the optimizer touches: the UTC clock rendered by
`datetime.utcnow().isoformat()`, `self.rds.describe_db_clusters` keyed by
`DBClusterIdentifier`, and `kafka` client `describe_cluster` keyed by
`ClusterArn`.  An `Except.error` result models the API call raising. -/
structure Env where
  now_iso : String
  rds_describe : String → Except PyError JValue
  msk_describe : String → Except PyError JValue

/-- `CostOptimizer.analyze_cluster_usage` (source lines 18-38): returns the
placeholder metrics dict unconditionally; the `end_time`/`start_time`
computation has no effect on the result and cannot raise. -/
def analyze_cluster_usage (cluster_name : String) : JValue :=
  let metrics : JValue := .obj [
    ("cpu_utilization", .num 0),
    ("memory_utilization", .num 0),
    ("pod_count", .num 0)]
  let recommendations : JValue := .arr []
  .obj [
    ("cluster", .str cluster_name),
    ("metrics", metrics),
    ("recommendations", recommendations),
    ("total_estimated_savings", .num 0)]

/-- Outcome of the `try` block in `analyze_rds_usage` (source lines 42-48):
either the early `return {error: Cluster not found}` or the bound variable
`cluster = clusters[DBClusters][0]`. -/
inductive RdsTryResult where
  | earlyReturn (v : JValue)
  | cluster (c : JValue)

/-- The `try` block of `analyze_rds_usage` (source lines 42-46):
`clusters = self.rds.describe_db_clusters(...)`, the emptiness check on
`clusters[DBClusters]`, and `cluster = clusters[DBClusters][0]`.  Any
exception raised inside is surfaced as `Except.error`. -/
def rdsTryBody (env : Env) (cluster_identifier : String) :
    Except PyError RdsTryResult :=
  match env.rds_describe cluster_identifier with
  | .error e => .error e
  | .ok clusters =>
    match pySubscript clusters "DBClusters" with
    | .error e => .error e
    | .ok dbcs =>
      if truthy dbcs = false then
        .ok (.earlyReturn (.obj [("error", .str "Cluster not found")]))
      else
        match pyIndex dbcs 0 with
        | .error e => .error e
        | .ok c => .ok (.cluster c)

/-- The body of `analyze_rds_usage` after the `try` block (source lines
50-65).  Exceptions raised here (`AttributeError` from `.get`, `KeyError` /
`IndexError` from the subscripts) are not caught and propagate. -/
def rdsMainBody (cluster_identifier : String) (cluster : JValue) :
    Except PyError JValue :=
  let storage_recommendation : JValue := .null
  match pyGet cluster "AllocatedStorage" (.num 100) with
  | .error e => .error e
  | .ok storage_used =>
    match pySubscript cluster "DBClusterMembers" with
    | .error e => .error e
    | .ok members =>
      match (if truthy members then
               match pyIndex members 0 with
               | .error e => .error e
               | .ok m0 => pySubscript m0 "DBInstanceClass"
             else .ok (.str "unknown") : Except PyError JValue) with
      | .error e => .error e
      | .ok instance_class =>
        .ok (.obj [
          ("cluster", .str cluster_identifier),
          ("instance_class", instance_class),
          ("storage", .obj [
            ("allocated_gb", storage_used),
            ("free_gb", .num 0),
            ("percent_free", .num 0)]),
          ("replicas", .arr []),
          ("recommendations",
            if truthy storage_recommendation then
              .arr [storage_recommendation]
            else .arr [])])

/-- `CostOptimizer.analyze_rds_usage` (source lines 40-65): the `try` block
converts any exception into `{error: str(e)}`; the rest of the body may
itself raise, and such exceptions propagate to the caller. -/
def analyze_rds_usage (env : Env) (cluster_identifier : String) :
    Except PyError JValue :=
  match rdsTryBody env cluster_identifier with
  | .error e => .ok (.obj [("error", .str e.msg)])
  | .ok (.earlyReturn v) => .ok v
  | .ok (.cluster cluster) => rdsMainBody cluster_identifier cluster

/-- `CostOptimizer.analyze_kafka_usage` (source lines 67-83): only the
`describe_cluster` call is inside the `try`; the
`cluster[ClusterInfo][NumberOfBrokerNodes]` subscripts are outside it and
may raise. -/
def analyze_kafka_usage (env : Env) (cluster_arn : String) :
    Except PyError JValue :=
  match env.msk_describe cluster_arn with
  | .error e => .ok (.obj [("error", .str e.msg)])
  | .ok cluster =>
    match pySubscript cluster "ClusterInfo" with
    | .error e => .error e
    | .ok info =>
      match pySubscript info "NumberOfBrokerNodes" with
      | .error e => .error e
      | .ok broker_count =>
        .ok (.obj [
          ("cluster", .str cluster_arn),
          ("brokers", .obj [("count", broker_count)]),
          ("recommendations", .arr [])])

/-- `CostOptimizer.get_total_cost` (source lines 85-87): placeholder that
always returns `0.0`. -/
def get_total_cost : ℚ := 0

/-- One entry of the `components` list in `generate_cost_report` (source
lines 98-101): a component type tag, the analyzer (a bound method, applied
as `analyzer(*args)`), and its argument list. -/
structure Component where
  component_type : String
  analyzer : List JValue → Except PyError JValue
  args : List JValue

/-- Which stream a `print` call writes to. -/
inductive OutStream where
  | stdout
  | stderr
deriving Repr, DecidableEq

/-- One printed line together with its destination stream. -/
structure OutLine where
  stream : OutStream
  text : String
deriving Repr, DecidableEq

/-- Mutable state of the report loop (source lines 103-114): the
`report[optimizations]` list, the `total_potential_savings` accumulator, and
everything printed so far. -/
structure LoopState where
  optimizations : List JValue
  total_potential_savings : ℚ
  output : List OutLine

/-- The line printed by the `except` branch of the report loop (source line
114): a bare `print(f"Error analyzing {component_type}: {e}")`, which writes
to standard output. -/
def errorLine (component_type : String) (e : PyError) : OutLine :=
  ⟨.stdout, "Error analyzing " ++ component_type ++ ": " ++ e.msg⟩

/-- One iteration of the report loop (source lines 105-114).  The `try`
block runs `analysis = analyzer(*args)`, appends the optimization entry, and
adds `analysis.get(total_estimated_savings, 0)` to the accumulator; an
exception raised at any of those points jumps to the `except` branch, which
prints the error and continues.  Note the append is a mutation that survives
a later exception in the same iteration. -/
def reportLoopStep (s : LoopState) (c : Component) : LoopState :=
  match c.analyzer c.args with
  | .error e =>
    { s with output := s.output ++ [errorLine c.component_type e] }
  | .ok analysis =>
    let opts := s.optimizations ++
      [JValue.obj [("component", .str c.component_type), ("analysis", analysis)]]
    match pyGet analysis "total_estimated_savings" (.num 0) with
    | .error e =>
      { optimizations := opts,
        total_potential_savings := s.total_potential_savings,
        output := s.output ++ [errorLine c.component_type e] }
    | .ok v =>
      match pyAddNum s.total_potential_savings v with
      | .error e =>
        { optimizations := opts,
          total_potential_savings := s.total_potential_savings,
          output := s.output ++ [errorLine c.component_type e] }
      | .ok acc =>
        { optimizations := opts,
          total_potential_savings := acc,
          output := s.output }

/-- Initial loop state: `report[optimizations] = []`,
`total_potential_savings = 0`, nothing printed. -/
def initState : LoopState := ⟨[], 0, []⟩

/-- The denominator of the savings percentage (source line 117):
`report[total_current_cost] or 1`, i.e. the total cost when it is truthy
(non-zero) and `1` otherwise. -/
def savingsDenominator : ℚ :=
  if get_total_cost = 0 then 1 else get_total_cost

/-- The body of `generate_cost_report` (source lines 89-120) abstracted over
the `components` list, returning the report dict and the lines printed while
building it.  The timestamp, time range and total cost are filled before the
loop; the loop folds `reportLoopStep` over the components; the three final
keys are assigned after the loop. -/
def generate_cost_report_with (env : Env) (components : List Component) :
    JValue × List OutLine :=
  let tcc : ℚ := get_total_cost
  let final := components.foldl reportLoopStep initState
  (JValue.obj [
    ("timestamp", .str env.now_iso),
    ("time_range", .str "LAST_30_DAYS"),
    ("total_current_cost", .num tcc),
    ("optimizations", .arr final.optimizations),
    ("total_potential_savings", .num final.total_potential_savings),
    ("savings_percentage",
      .num (final.total_potential_savings / savingsDenominator * 100)),
    ("priority_recommendations", .obj [
      ("high", .arr []),
      ("medium", .arr []),
      ("low", .arr [])])],
   final.output)

/-- The bound method `self.analyze_cluster_usage` as it is stored in the
`components` tuple and applied via `analyzer(*args)`: it expects exactly one
string argument. -/
def eksAnalyzer : List JValue → Except PyError JValue
  | [JValue.str name] => .ok (analyze_cluster_usage name)
  | _ => .error ⟨"TypeError: invalid arguments"⟩

/-- The hardcoded `components` list of `generate_cost_report` (source lines
98-101): a single EKS entry for cluster `securazion-production`. -/
def fixedComponents : List Component :=
  [⟨"eks", eksAnalyzer, [JValue.str "securazion-production"]⟩]

/-- `CostOptimizer.generate_cost_report` (source lines 89-120): the report
body applied to the hardcoded components list. -/
def generate_cost_report (env : Env) : JValue × List OutLine :=
  generate_cost_report_with env fixedComponents

/-- The well-formed non-error result shape of `analyze_rds_usage` (source
lines 55-65), parameterised by the allocated-storage value and the instance
class. -/
def rdsResult (cluster_identifier : String) (storage_used instance_class : JValue) : JValue :=
  .obj [
    ("cluster", .str cluster_identifier),
    ("instance_class", instance_class),
    ("storage", .obj [
      ("allocated_gb", storage_used),
      ("free_gb", .num 0),
      ("percent_free", .num 0)]),
    ("replicas", .arr []),
    ("recommendations", .arr [])]

/-- The lines printed by one loop iteration.  They depend only on the
component: the accumulator is always numeric, so whether the `+=` raises
(and with which message) is independent of the accumulator value. -/
def stepLog (c : Component) : List OutLine :=
  match c.analyzer c.args with
  | .error e => [errorLine c.component_type e]
  | .ok analysis =>
    match pyGet analysis "total_estimated_savings" (.num 0) with
    | .error e => [errorLine c.component_type e]
    | .ok v =>
      match pyAddNum 0 v with
      | .error e => [errorLine c.component_type e]
      | .ok _ => []

/-- All lines printed by the report loop over a components list. -/
def runLog (components : List Component) : List OutLine :=
  (components.map stepLog).flatten

/-- Concrete environment whose external APIs all fail. -/
def env0 : Env :=
  ⟨"2024-01-01T00:00:00", fun _ => .error ⟨"no rds"⟩, fun _ => .error ⟨"no msk"⟩⟩

/-- A component whose analyzer always raises. -/
def failC : Component := ⟨"eks", fun _ => .error ⟨"boom"⟩, []⟩

/-- Concrete environment: the streaming API returns a well-formed cluster
descriptor with three broker nodes. -/
def kafkaEnvOk : Env :=
  ⟨"2024-01-01T00:00:00", fun _ => .error ⟨"no rds"⟩,
   fun _ => .ok (.obj [("ClusterInfo", .obj [("NumberOfBrokerNodes", .num 3)])])⟩

/-- Concrete environment: the relational-storage API finds `db-a` with an
empty `DBClusters` list and raises for every other identifier; the streaming
API always raises. -/
def envMixed : Env :=
  ⟨"2024-01-01T00:00:00",
   fun s => if s = "db-a" then .ok (.obj [("DBClusters", .arr [])])
            else .error ⟨"service unavailable"⟩,
   fun _ => .error ⟨"kafka unavailable"⟩⟩

/-- Concrete cluster descriptor: empty member list, no allocated-storage
field. -/
def bareRdsCluster : List (String × JValue) := [("DBClusterMembers", .arr [])]

/-- Concrete environment: the relational-storage API returns a single
cluster equal to `bareRdsCluster`. -/
def envBareRds : Env :=
  ⟨"2024-01-01T00:00:00",
   fun _ => .ok (.obj [("DBClusters", .arr [.obj bareRdsCluster])]),
   fun _ => .error ⟨"no msk"⟩⟩

lemma reportLoopStep_congr (s t : LoopState) (c : Component)
    (h1 : s.optimizations = t.optimizations)
    (h2 : s.total_potential_savings = t.total_potential_savings) :
    (reportLoopStep s c).optimizations = (reportLoopStep t c).optimizations ∧
    (reportLoopStep s c).total_potential_savings =
      (reportLoopStep t c).total_potential_savings := by
  rcases s with ⟨o, sv, u⟩
  rcases t with ⟨o2, sv2, u2⟩
  simp only at h1 h2
  subst h1; subst h2
  cases h : c.analyzer c.args with
  | error e => simp [reportLoopStep, h]
  | ok analysis =>
    cases hg : pyGet analysis "total_estimated_savings" (.num 0) with
    | error e => simp [reportLoopStep, h, hg]
    | ok v =>
      cases ha : pyAddNum sv v with
      | error e => simp [reportLoopStep, h, hg, ha]
      | ok acc => simp [reportLoopStep, h, hg, ha]

lemma foldl_reportLoopStep_congr (cs : List Component) (s t : LoopState)
    (h1 : s.optimizations = t.optimizations)
    (h2 : s.total_potential_savings = t.total_potential_savings) :
    (cs.foldl reportLoopStep s).optimizations =
      (cs.foldl reportLoopStep t).optimizations ∧
    (cs.foldl reportLoopStep s).total_potential_savings =
      (cs.foldl reportLoopStep t).total_potential_savings := by
  induction cs generalizing s t with
  | nil => exact ⟨h1, h2⟩
  | cons c cs ih =>
    simp only [List.foldl_cons]
    obtain ⟨g1, g2⟩ := reportLoopStep_congr s t c h1 h2
    exact ih _ _ g1 g2

lemma reportLoopStep_output (s : LoopState) (c : Component) :
    (reportLoopStep s c).output = s.output ++ stepLog c := by
  cases h : c.analyzer c.args with
  | error e => simp [reportLoopStep, stepLog, h]
  | ok analysis =>
    cases hg : pyGet analysis "total_estimated_savings" (.num 0) with
    | error e => simp [reportLoopStep, stepLog, h, hg]
    | ok v =>
      cases v <;> simp [reportLoopStep, stepLog, h, hg, pyAddNum]

lemma foldl_reportLoopStep_output (cs : List Component) (s : LoopState) :
    (cs.foldl reportLoopStep s).output = s.output ++ runLog cs := by
  induction cs generalizing s with
  | nil => simp [runLog]
  | cons c cs ih =>
    simp only [List.foldl_cons]
    rw [ih, reportLoopStep_output]
    simp [runLog]

lemma stepLog_stream (c : Component) :
    ∀ l ∈ stepLog c, l.stream = OutStream.stdout := by
  intro l hl
  cases h : c.analyzer c.args with
  | error e =>
    simp [stepLog, h] at hl
    simp [hl, errorLine]
  | ok analysis =>
    cases hg : pyGet analysis "total_estimated_savings" (.num 0) with
    | error e =>
      simp [stepLog, h, hg] at hl
      simp [hl, errorLine]
    | ok v =>
      cases ha : pyAddNum 0 v with
      | error e =>
        simp [stepLog, h, hg, ha] at hl
        simp [hl, errorLine]
      | ok acc =>
        simp [stepLog, h, hg, ha] at hl

lemma runLog_stream (cs : List Component) :
    ∀ l ∈ runLog cs, l.stream = OutStream.stdout := by
  intro l hl
  induction cs with
  | nil => simp [runLog] at hl
  | cons c cs ih =>
    simp only [runLog, List.map_cons, List.flatten_cons] at hl
    rcases List.mem_append.mp hl with h | h
    · exact stepLog_stream c l h
    · exact ih h

lemma stepLog_subset_runLog (cs : List Component) (c : Component)
    (hmem : c ∈ cs) : ∀ l ∈ stepLog c, l ∈ runLog cs := by
  intro l hl
  induction cs with
  | nil => simp at hmem
  | cons d ds ih =>
    simp only [runLog, List.map_cons, List.flatten_cons]
    rcases List.mem_cons.mp hmem with h | h
    · subst h; exact List.mem_append.mpr (Or.inl hl)
    · exact List.mem_append.mpr (Or.inr (ih h))

lemma rdsTryBody_earlyReturn {env : Env} {id : String} {v : JValue}
    (h : rdsTryBody env id = .ok (.earlyReturn v)) :
    v = .obj [("error", .str "Cluster not found")] := by
  cases hr : env.rds_describe id with
  | error e => simp [rdsTryBody, hr] at h
  | ok clusters =>
    cases hs : pySubscript clusters "DBClusters" with
    | error e => simp [rdsTryBody, hr, hs] at h
    | ok dbcs =>
      by_cases ht : truthy dbcs = false
      · simp [rdsTryBody, hr, hs, if_pos ht] at h
        exact h.symm
      · cases hi : pyIndex dbcs 0 with
        | error e => simp [rdsTryBody, hr, hs, if_neg ht, hi] at h
        | ok c => simp [rdsTryBody, hr, hs, if_neg ht, hi] at h

lemma rdsMainBody_ok {id : String} {c r : JValue}
    (h : rdsMainBody id c = .ok r) :
    ∃ su ic, pyGet c "AllocatedStorage" (.num 100) = .ok su ∧
      r = rdsResult id su ic := by
  unfold rdsMainBody at h
  split at h
  · simp at h
  · rename_i su hg
    split at h
    · simp at h
    · rename_i members hm
      split at h
      · simp at h
      · rename_i ic hic
        refine ⟨su, ic, hg, ?_⟩
        simp [truthy, rdsResult] at h
        exact h.symm

lemma analyze_rds_ok_shape {env : Env} {id : String} {r : JValue}
    (h : analyze_rds_usage env id = .ok r)
    (hne : jlookup r "error" = none) :
    ∃ su ic, r = rdsResult id su ic := by
  unfold analyze_rds_usage at h
  cases ht : rdsTryBody env id with
  | error e =>
    rw [ht] at h
    simp at h
    rw [← h] at hne
    simp [jlookup] at hne
  | ok tr =>
    cases tr with
    | earlyReturn v =>
      rw [ht] at h
      simp at h
      rw [rdsTryBody_earlyReturn ht] at h
      rw [← h] at hne
      simp [jlookup] at hne
    | cluster c =>
      rw [ht] at h
      obtain ⟨su, ic, _, hr⟩ := rdsMainBody_ok h
      exact ⟨su, ic, hr⟩

lemma analyze_kafka_ok_shape {env : Env} {arn : String} {r : JValue}
    (h : analyze_kafka_usage env arn = .ok r)
    (hne : jlookup r "error" = none) :
    ∃ bc, r = .obj [
      ("cluster", .str arn),
      ("brokers", .obj [("count", bc)]),
      ("recommendations", .arr [])] := by
  cases hm : env.msk_describe arn with
  | error e =>
    simp [analyze_kafka_usage, hm] at h
    rw [← h] at hne
    simp [jlookup] at hne
  | ok cluster =>
    cases hc : pySubscript cluster "ClusterInfo" with
    | error e => simp [analyze_kafka_usage, hm, hc] at h
    | ok info =>
      cases hb : pySubscript info "NumberOfBrokerNodes" with
      | error e => simp [analyze_kafka_usage, hm, hc, hb] at h
      | ok bc =>
        simp [analyze_kafka_usage, hm, hc, hb] at h
        exact ⟨bc, h.symm⟩

lemma analyze_rds_via_main {env : Env} {id : String} {resp : JValue}
    {fields : List (String × JValue)} {rest : List JValue}
    (h1 : env.rds_describe id = .ok resp)
    (h2 : jlookup resp "DBClusters" = some (.arr (JValue.obj fields :: rest))) :
    analyze_rds_usage env id = rdsMainBody id (.obj fields) := by
  cases resp <;> simp [jlookup] at h2
  simp [analyze_rds_usage, rdsTryBody, h1, pySubscript, h2, truthy, pyIndex]

/-- C1: for every run, whatever the components list and however its
analyzers behave, the report returned by the body of `generate_cost_report`
is a dict with exactly the seven documented top-level keys, and so is the
report of `generate_cost_report` itself. -/
theorem report_has_seven_keys (env : Env) (components : List Component) :
    jkeys (generate_cost_report_with env components).1 =
      ["timestamp", "time_range", "total_current_cost", "optimizations",
       "total_potential_savings", "savings_percentage",
       "priority_recommendations"] ∧
    jkeys (generate_cost_report env).1 =
      ["timestamp", "time_range", "total_current_cost", "optimizations",
       "total_potential_savings", "savings_percentage",
       "priority_recommendations"] :=
  ⟨rfl, rfl⟩

/-- C2: a component whose analyzer raises contributes no optimization entry
and nothing to the savings sum: the report is exactly the one produced
without that component, so report generation completes and the full report
is still returned. -/
theorem raising_analyzer_omitted (env : Env) (pre post : List Component)
    (c : Component) (e : PyError)
    (h : c.analyzer c.args = .error e) :
    (generate_cost_report_with env (pre ++ c :: post)).1 =
      (generate_cost_report_with env (pre ++ post)).1 := by
  have hstep :
      (reportLoopStep (pre.foldl reportLoopStep initState) c).optimizations
        = (pre.foldl reportLoopStep initState).optimizations ∧
      (reportLoopStep (pre.foldl reportLoopStep initState) c).total_potential_savings
        = (pre.foldl reportLoopStep initState).total_potential_savings := by
    simp [reportLoopStep, h]
  have hmain := foldl_reportLoopStep_congr post
    (reportLoopStep (pre.foldl reportLoopStep initState) c)
    (pre.foldl reportLoopStep initState) hstep.1 hstep.2
  simp only [generate_cost_report_with, List.foldl_append, List.foldl_cons]
  rw [hmain.1, hmain.2]

/-- Witness for C2: a concrete raising analyzer is omitted from the
report. -/
theorem raising_analyzer_omitted_witness :
    failC.analyzer failC.args = .error ⟨"boom"⟩ ∧
    (generate_cost_report_with env0 ([] ++ failC :: [])).1 =
      (generate_cost_report_with env0 ([] ++ [])).1 :=
  ⟨rfl, raising_analyzer_omitted env0 [] [] failC ⟨"boom"⟩ rfl⟩

/-- C3: an empty `DBClusters` answer makes `analyze_rds_usage` return the
dict containing only the error key `Cluster not found`; a raising
relational-storage or streaming API call makes `analyze_rds_usage` /
`analyze_kafka_usage` return `{error: str(e)}` instead of propagating. -/
theorem analyzer_error_mappings (env : Env) (id1 id2 arn : String)
    (resp : JValue) (e1 e2 : PyError)
    (h1 : env.rds_describe id1 = .ok resp)
    (h2 : jlookup resp "DBClusters" = some (.arr []))
    (h3 : env.rds_describe id2 = .error e1)
    (h4 : env.msk_describe arn = .error e2) :
    analyze_rds_usage env id1 = .ok (.obj [("error", .str "Cluster not found")]) ∧
    analyze_rds_usage env id2 = .ok (.obj [("error", .str e1.msg)]) ∧
    analyze_kafka_usage env arn = .ok (.obj [("error", .str e2.msg)]) := by
  refine ⟨?_, ?_, ?_⟩
  · cases resp <;> simp [jlookup] at h2
    simp [analyze_rds_usage, rdsTryBody, h1, pySubscript, h2, truthy]
  · simp [analyze_rds_usage, rdsTryBody, h3]
  · simp [analyze_kafka_usage, h4]

/-- Witness for C3 at the concrete environment `envMixed`. -/
theorem analyzer_error_mappings_witness :
    envMixed.rds_describe "db-a" = .ok (.obj [("DBClusters", .arr [])]) ∧
    jlookup (.obj [("DBClusters", .arr [])]) "DBClusters" = some (.arr []) ∧
    envMixed.rds_describe "db-b" = .error ⟨"service unavailable"⟩ ∧
    envMixed.msk_describe "arn-1" = .error ⟨"kafka unavailable"⟩ ∧
    (analyze_rds_usage envMixed "db-a" =
       .ok (.obj [("error", .str "Cluster not found")]) ∧
     analyze_rds_usage envMixed "db-b" =
       .ok (.obj [("error", .str "service unavailable")]) ∧
     analyze_kafka_usage envMixed "arn-1" =
       .ok (.obj [("error", .str "kafka unavailable")])) :=
  ⟨rfl, rfl, rfl, rfl,
   analyzer_error_mappings envMixed "db-a" "db-b" "arn-1"
     (.obj [("DBClusters", .arr [])]) ⟨"service unavailable"⟩
     ⟨"kafka unavailable"⟩ rfl rfl rfl rfl⟩

/-- C4: `get_total_cost` returns 0, so the `or 1` guard makes the
percentage denominator 1: `savings_percentage` is
`total_potential_savings / 1 * 100` for every components list, the division
is never by zero, and the actual report (total cost 0, savings 0) has
percentage 0. -/
theorem savings_percentage_division_guard (env : Env)
    (components : List Component) :
    get_total_cost = 0 ∧
    savingsDenominator = 1 ∧
    jlookup (generate_cost_report_with env components).1 "savings_percentage" =
      some (.num
        ((components.foldl reportLoopStep initState).total_potential_savings
          / 1 * 100)) ∧
    jlookup (generate_cost_report env).1 "total_potential_savings" =
      some (.num 0) ∧
    jlookup (generate_cost_report env).1 "savings_percentage" =
      some (.num 0) := by
  refine ⟨rfl, by norm_num [savingsDenominator, get_total_cost], ?_, ?_, ?_⟩
  · simp [generate_cost_report_with, jlookup, List.lookup, savingsDenominator,
      get_total_cost]
  · simp [generate_cost_report, generate_cost_report_with, jlookup,
      List.lookup, Option.getD, fixedComponents, reportLoopStep, initState,
      eksAnalyzer, pyGet, pyAddNum, analyze_cluster_usage]
  · simp [generate_cost_report, generate_cost_report_with, jlookup,
      List.lookup, Option.getD, fixedComponents, reportLoopStep, initState,
      eksAnalyzer, pyGet, pyAddNum, analyze_cluster_usage, savingsDenominator,
      get_total_cost]

/-- C5: `analyze_cluster_usage` returns savings 0 and an empty
recommendations list for every cluster name, and `get_total_cost` always
returns 0. -/
theorem placeholder_analyzer_constant (cluster_name : String) :
    jlookup (analyze_cluster_usage cluster_name) "total_estimated_savings" =
      some (.num 0) ∧
    jlookup (analyze_cluster_usage cluster_name) "recommendations" =
      some (.arr []) ∧
    get_total_cost = 0 :=
  ⟨rfl, rfl, rfl⟩

/-- C8: the components list is the single hardcoded EKS entry for
`securazion-production`, so the report has exactly one optimization entry
(hence at most one) and the priority recommendations are the three empty
buckets. -/
theorem single_eks_invocation (env : Env) :
    fixedComponents =
      [⟨"eks", eksAnalyzer, [JValue.str "securazion-production"]⟩] ∧
    jlookup (generate_cost_report env).1 "optimizations" =
      some (.arr [.obj [("component", .str "eks"),
        ("analysis", analyze_cluster_usage "securazion-production")]]) ∧
    jlookup (generate_cost_report env).1 "priority_recommendations" =
      some (.obj [("high", .arr []), ("medium", .arr []), ("low", .arr [])]) :=
  ⟨rfl, rfl, rfl⟩

/-- Counterexample for C7: at a concrete raising analyzer, the report loop
logs the error with a bare `print`, which writes to standard output — no
line goes to standard error, refuting the claim that the message is logged
to standard error. -/
theorem error_logged_to_stdout_cex :
    failC.analyzer failC.args = .error ⟨"boom"⟩ ∧
    (generate_cost_report_with env0 [failC]).2 =
      [⟨OutStream.stdout, "Error analyzing eks: boom"⟩] ∧
    ∀ line ∈ (generate_cost_report_with env0 [failC]).2,
      line.stream ≠ OutStream.stderr := by
  refine ⟨rfl, rfl, ?_⟩
  intro line hl
  have heq : (generate_cost_report_with env0 [failC]).2 =
      [⟨OutStream.stdout, "Error analyzing eks: boom"⟩] := rfl
  rw [heq] at hl
  simp at hl
  subst hl
  decide

/-- C7 (amended): whenever an analyzer invoked by the report loop raises,
the error message for that component is logged, but to standard output (a
bare `print` call), and nothing the loop prints ever goes to standard
error. -/
theorem raising_analyzer_logged_stdout (env : Env) (components : List Component)
    (c : Component) (e : PyError)
    (hmem : c ∈ components) (h : c.analyzer c.args = .error e) :
    errorLine c.component_type e ∈ (generate_cost_report_with env components).2 ∧
    (errorLine c.component_type e).stream = OutStream.stdout ∧
    ∀ line ∈ (generate_cost_report_with env components).2,
      line.stream = OutStream.stdout := by
  have hout : (generate_cost_report_with env components).2 = runLog components := by
    simp [generate_cost_report_with, foldl_reportLoopStep_output, initState]
  rw [hout]
  refine ⟨?_, rfl, runLog_stream components⟩
  apply stepLog_subset_runLog components c hmem
  simp [stepLog, h, errorLine]

/-- Witness for C7 (amended) at a concrete raising analyzer. -/
theorem raising_analyzer_logged_stdout_witness :
    failC ∈ [failC] ∧ failC.analyzer failC.args = .error ⟨"boom"⟩ ∧
    errorLine "eks" ⟨"boom"⟩ ∈ (generate_cost_report_with env0 [failC]).2 ∧
    ∀ line ∈ (generate_cost_report_with env0 [failC]).2,
      line.stream = OutStream.stdout := by
  refine ⟨List.mem_singleton.mpr rfl, rfl, ?_, ?_⟩
  · exact (raising_analyzer_logged_stdout env0 [failC] failC ⟨"boom"⟩
      (List.mem_singleton.mpr rfl) rfl).1
  · exact (raising_analyzer_logged_stdout env0 [failC] failC ⟨"boom"⟩
      (List.mem_singleton.mpr rfl) rfl).2.2

/-- Counterexample for C6: a concrete successful (non-error) result of
`analyze_kafka_usage` contains no estimated-savings field at all, refuting
the claim that every non-error analysis result contains one. -/
theorem kafka_result_lacks_savings_cex :
    analyze_kafka_usage kafkaEnvOk "arn-1" =
      .ok (.obj [("cluster", .str "arn-1"),
                 ("brokers", .obj [("count", .num 3)]),
                 ("recommendations", .arr [])]) ∧
    jlookup (.obj [("cluster", .str "arn-1"),
                   ("brokers", .obj [("count", .num 3)]),
                   ("recommendations", .arr [])]) "error" = none ∧
    jlookup (.obj [("cluster", .str "arn-1"),
                   ("brokers", .obj [("count", .num 3)]),
                   ("recommendations", .arr [])]) "total_estimated_savings" =
      none :=
  ⟨rfl, rfl, rfl⟩

/-- C6 (amended): every `analyze_cluster_usage` result carries a resource
identifier, a metric mapping, a recommendations list and an
estimated-savings field equal to 0; every non-error result of
`analyze_rds_usage` and `analyze_kafka_usage` carries a resource identifier,
a metric mapping and a recommendations list, but no estimated-savings
field. -/
theorem analysis_result_shapes :
    (∀ name : String,
      jkeys (analyze_cluster_usage name) =
        ["cluster", "metrics", "recommendations", "total_estimated_savings"] ∧
      jlookup (analyze_cluster_usage name) "total_estimated_savings" =
        some (.num 0)) ∧
    (∀ (env : Env) (id : String) (r : JValue),
      analyze_rds_usage env id = .ok r → jlookup r "error" = none →
      jkeys r = ["cluster", "instance_class", "storage", "replicas",
        "recommendations"] ∧
      jlookup r "total_estimated_savings" = none) ∧
    (∀ (env : Env) (arn : String) (r : JValue),
      analyze_kafka_usage env arn = .ok r → jlookup r "error" = none →
      jkeys r = ["cluster", "brokers", "recommendations"] ∧
      jlookup r "total_estimated_savings" = none) := by
  refine ⟨fun name => ⟨rfl, rfl⟩, ?_, ?_⟩
  · intro env id r h hne
    obtain ⟨su, ic, hr⟩ := analyze_rds_ok_shape h hne
    subst hr
    exact ⟨rfl, rfl⟩
  · intro env arn r h hne
    obtain ⟨bc, hr⟩ := analyze_kafka_ok_shape h hne
    subst hr
    exact ⟨rfl, rfl⟩

/-- Witness for C6 (amended) at concrete RDS and Kafka responses. -/
theorem analysis_result_shapes_witness :
    (jkeys (analyze_cluster_usage "c1") =
       ["cluster", "metrics", "recommendations", "total_estimated_savings"] ∧
     jlookup (analyze_cluster_usage "c1") "total_estimated_savings" =
       some (.num 0)) ∧
    (jkeys (rdsResult "db-1" (.num 100) (.str "unknown")) =
       ["cluster", "instance_class", "storage", "replicas",
        "recommendations"] ∧
     jlookup (rdsResult "db-1" (.num 100) (.str "unknown"))
       "total_estimated_savings" = none) ∧
    (jkeys (JValue.obj [("cluster", .str "arn-2"),
        ("brokers", .obj [("count", .num 3)]),
        ("recommendations", .arr [])]) =
       ["cluster", "brokers", "recommendations"] ∧
     jlookup (JValue.obj [("cluster", .str "arn-2"),
        ("brokers", .obj [("count", .num 3)]),
        ("recommendations", .arr [])]) "total_estimated_savings" = none) := by
  refine ⟨analysis_result_shapes.1 "c1", ?_, ?_⟩
  · exact analysis_result_shapes.2.1 envBareRds "db-1"
      (rdsResult "db-1" (.num 100) (.str "unknown")) rfl rfl
  · exact analysis_result_shapes.2.2 kafkaEnvOk "arn-2"
      (JValue.obj [("cluster", .str "arn-2"),
        ("brokers", .obj [("count", .num 3)]),
        ("recommendations", .arr [])]) rfl rfl

/-- C9: a cluster descriptor without an `AllocatedStorage` field yields
`allocated_gb` equal to the hardcoded default 100 (rather than an exception
or a missing field), and every successful result reports `free_gb` 0 and
`percent_free` 0. -/
theorem rds_allocated_storage_default (env : Env) (id : String)
    (resp : JValue) (fields : List (String × JValue)) (rest : List JValue)
    (r : JValue)
    (h1 : env.rds_describe id = .ok resp)
    (h2 : jlookup resp "DBClusters" = some (.arr (JValue.obj fields :: rest)))
    (h3 : fields.lookup "AllocatedStorage" = none)
    (h4 : analyze_rds_usage env id = .ok r) :
    jlookup2 r "storage" "allocated_gb" = some (.num 100) ∧
    jlookup2 r "storage" "free_gb" = some (.num 0) ∧
    jlookup2 r "storage" "percent_free" = some (.num 0) ∧
    (∀ (env2 : Env) (id2 : String) (r2 : JValue),
      analyze_rds_usage env2 id2 = .ok r2 → jlookup r2 "error" = none →
      jlookup2 r2 "storage" "free_gb" = some (.num 0) ∧
      jlookup2 r2 "storage" "percent_free" = some (.num 0)) := by
  rw [analyze_rds_via_main h1 h2] at h4
  obtain ⟨su, ic, hg, hr⟩ := rdsMainBody_ok h4
  simp [pyGet, h3] at hg
  subst hg
  subst hr
  refine ⟨rfl, rfl, rfl, ?_⟩
  intro env2 id2 r2 h hne
  obtain ⟨su2, ic2, hr2⟩ := analyze_rds_ok_shape h hne
  subst hr2
  exact ⟨rfl, rfl⟩

/-- Witness for C9 at a concrete descriptor lacking `AllocatedStorage`. -/
theorem rds_allocated_storage_default_witness :
    envBareRds.rds_describe "db-1" =
      .ok (.obj [("DBClusters", .arr [.obj bareRdsCluster])]) ∧
    jlookup (.obj [("DBClusters", .arr [.obj bareRdsCluster])]) "DBClusters" =
      some (.arr (JValue.obj bareRdsCluster :: [])) ∧
    bareRdsCluster.lookup "AllocatedStorage" = none ∧
    analyze_rds_usage envBareRds "db-1" =
      .ok (rdsResult "db-1" (.num 100) (.str "unknown")) ∧
    jlookup2 (rdsResult "db-1" (.num 100) (.str "unknown"))
      "storage" "allocated_gb" = some (.num 100) := by
  refine ⟨rfl, rfl, rfl, rfl, ?_⟩
  exact (rds_allocated_storage_default envBareRds "db-1"
    (.obj [("DBClusters", .arr [.obj bareRdsCluster])]) bareRdsCluster []
    (rdsResult "db-1" (.num 100) (.str "unknown")) rfl rfl rfl rfl).1

/-- C10: a cluster descriptor whose `DBClusterMembers` list is empty does
not make `analyze_rds_usage` raise an indexing error: the guard short
circuits to the string `unknown` for `instance_class` and the analysis
succeeds. -/
theorem rds_empty_members_unknown (env : Env) (id : String)
    (resp : JValue) (fields : List (String × JValue)) (rest : List JValue)
    (h1 : env.rds_describe id = .ok resp)
    (h2 : jlookup resp "DBClusters" = some (.arr (JValue.obj fields :: rest)))
    (h3 : fields.lookup "DBClusterMembers" = some (.arr [])) :
    ∃ r, analyze_rds_usage env id = .ok r ∧
      jlookup r "instance_class" = some (.str "unknown") := by
  refine ⟨rdsResult id ((fields.lookup "AllocatedStorage").getD (.num 100))
    (.str "unknown"), ?_, rfl⟩
  rw [analyze_rds_via_main h1 h2]
  simp [rdsMainBody, pyGet, pySubscript, h3, truthy, rdsResult]

/-- Witness for C10 at a concrete descriptor with an empty member list. -/
theorem rds_empty_members_unknown_witness :
    envBareRds.rds_describe "db-2" =
      .ok (.obj [("DBClusters", .arr [.obj bareRdsCluster])]) ∧
    jlookup (.obj [("DBClusters", .arr [.obj bareRdsCluster])]) "DBClusters" =
      some (.arr (JValue.obj bareRdsCluster :: [])) ∧
    bareRdsCluster.lookup "DBClusterMembers" = some (.arr []) ∧
    (∃ r, analyze_rds_usage envBareRds "db-2" = .ok r ∧
      jlookup r "instance_class" = some (.str "unknown")) :=
  ⟨rfl, rfl, rfl,
   rds_empty_members_unknown envBareRds "db-2"
     (.obj [("DBClusters", .arr [.obj bareRdsCluster])]) bareRdsCluster []
     rfl rfl rfl⟩
